import Mathlib

/-! CC1100 register map and command constants (`ART5/RFTest/cc1100.h`)

The header consists of preprocessor definitions and two arrays.  The embedding keeps
the definitions as data, in source order:

* `valueDefines`  : the `#define NAME value` lines 8-52,
* `addrDefines`   : the `#define ADDR_NAME value` lines 61-112 (some names twice),
* `cc1100regcfgInit` / `cc1100regcfg` : the initialiser of `byte cc1100regcfg[39]`,
  as written (macro names) and after macro expansion (bytes),
* the access flags, status masks, strobe opcodes, status register addresses,
  `CCxxx0_PATABLE`, `CCxxx0_TXFIFO`, `CCxxx0_RXFIFO` and `PA_TABLE` as constants.
-/

namespace CC1100

/-- Register names `X` occurring in the header, either as a value macro `X` or as an
address macro `ADDR_X`. -/
inductive Reg
  | IOCFG2 | IOCFG1 | IOCFG0 | FIFOTHR | SYNC1 | SYNC0 | PKTLEN | PKTCTRL1 | PKTCTRL0
  | ADDR | CHANNR | FSCTRL1 | FSCTRL0 | FREQ2 | FREQ1 | FREQ0
  | MDMCFG4 | MDMCFG3 | MDMCFG2 | MDMCFG1 | MDMCFG0 | DEVIATN
  | MCSM2 | MCSM1 | MCSM0 | FOCCFG | BSCFG | AGCCTRL2 | AGCCTRL1 | AGCCTRL0
  | WOREVT1 | WOREVT0 | WORCTRL | FREND1 | FREND0
  | FSCAL3 | FSCAL2 | FSCAL1 | FSCAL0
  | RCCTRL1 | RCCTRL0 | FSTEST | PTEST | AGCTEST | TEST2 | TEST1 | TEST0
  deriving DecidableEq, Repr

/-- The C type `byte` (an unsigned 8-bit integer): conversion of an integer constant. -/
def byte (n : Nat) : Nat := n % 256

/-- Lines 8-52: `#define X value`, in source order. -/
def valueDefines : List (Reg × Nat) :=
  [ (.IOCFG2, 0x0B), (.IOCFG1, 0x46), (.IOCFG0, 0x06), (.FIFOTHR, 0x07),
    (.SYNC1, 0xd3), (.SYNC0, 0x91), (.PKTLEN, 0xff), (.PKTCTRL1, 0x04),
    (.PKTCTRL0, 0x05), (.ADDR, 0x00), (.CHANNR, 0x00), (.FSCTRL1, 0x08),
    (.FSCTRL0, 0x00), (.FREQ2, 0x10), (.FREQ1, 0xa7), (.FREQ0, 0x62),
    (.MDMCFG4, 0x5b), (.MDMCFG3, 0xf8), (.MDMCFG2, 0x03), (.MDMCFG1, 0x22),
    (.MDMCFG0, 0xf8), (.DEVIATN, 0x47), (.MCSM2, 0x07), (.MCSM1, 0x3f),
    (.MCSM0, 0x18), (.FOCCFG, 0x1d), (.BSCFG, 0x1c), (.AGCCTRL2, 0xc7),
    (.AGCCTRL1, 0x00), (.AGCCTRL0, 0xb2), (.WOREVT1, 0x87), (.WOREVT0, 0x6b),
    (.WORCTRL, 0x71), (.FREND1, 0xb6), (.FREND0, 0x10), (.FSCAL3, 0xea),
    (.FSCAL2, 0x2a), (.FSCAL1, 0x00), (.FSCAL0, 0x1f),
    (.FSTEST, 0x59),
    (.TEST2, 0x81), (.TEST1, 0x35), (.TEST0, 0x0b) ]

/-- Lines 61-112: `#define ADDR_X value`, in source order.  `ADDR_FSTEST` (lines 102,
103) and `ADDR_TEST2`, `ADDR_TEST1`, `ADDR_TEST0` (lines 106-108 and 110-112) are
defined twice. -/
def addrDefines : List (Reg × Nat) :=
  [ (.IOCFG2, 0x00), (.IOCFG1, 0x01), (.IOCFG0, 0x02), (.FIFOTHR, 0x03),
    (.SYNC1, 0x04), (.SYNC0, 0x05), (.PKTLEN, 0x06), (.PKTCTRL1, 0x07),
    (.PKTCTRL0, 0x08), (.ADDR, 0x09), (.CHANNR, 0x0a), (.FSCTRL1, 0x0b),
    (.FSCTRL0, 0x0c), (.FREQ2, 0x0d), (.FREQ1, 0x0e), (.FREQ0, 0x0f),
    (.MDMCFG4, 0x10), (.MDMCFG3, 0x11), (.MDMCFG2, 0x12), (.MDMCFG1, 0x13),
    (.MDMCFG0, 0x14), (.DEVIATN, 0x15), (.MCSM2, 0x16), (.MCSM1, 0x17),
    (.MCSM0, 0x18), (.FOCCFG, 0x19), (.BSCFG, 0x1a), (.AGCCTRL2, 0x1b),
    (.AGCCTRL1, 0x1c), (.AGCCTRL0, 0x1d), (.WOREVT1, 0x1e), (.WOREVT0, 0x1f),
    (.WORCTRL, 0x20), (.FREND1, 0x21), (.FREND0, 0x22), (.FSCAL3, 0x23),
    (.FSCAL2, 0x24), (.FSCAL1, 0x25), (.FSCAL0, 0x26),
    (.RCCTRL1, 0x27), (.RCCTRL0, 0x28),
    (.FSTEST, 0x29),
    (.FSTEST, 0x29), (.PTEST, 0x2A), (.AGCTEST, 0x2B),
    (.TEST2, 0x2C), (.TEST1, 0x2D), (.TEST0, 0x2E),
    (.TEST2, 0x2c), (.TEST1, 0x2d), (.TEST0, 0x2e) ]

/-- All values a list of definitions gives to one name, in source order. -/
def definitionsOf (defs : List (Reg × Nat)) (r : Reg) : List Nat :=
  (defs.filter (fun p => decide (p.1 = r))).map Prod.snd

/-- Macro expansion of a name at the end of the header: the most recent definition of
the name is the one in effect; a name never defined does not expand. -/
def expand (defs : List (Reg × Nat)) (r : Reg) : Option Nat :=
  (definitionsOf defs r).getLast?

/-- Lines 54-57: the initialiser of `cc1100regcfg`, as written (macro names). -/
def cc1100regcfgInit : List Reg :=
  [ .IOCFG2, .IOCFG1, .IOCFG0, .FIFOTHR, .SYNC1, .SYNC0, .PKTLEN, .PKTCTRL1, .PKTCTRL0,
    .ADDR, .CHANNR, .FSCTRL1, .FSCTRL0,
    .FREQ2, .FREQ1, .FREQ0, .MDMCFG4, .MDMCFG3, .MDMCFG2, .MDMCFG1, .MDMCFG0, .DEVIATN,
    .MCSM2, .MCSM1, .MCSM0, .FOCCFG, .BSCFG,
    .AGCCTRL2, .AGCCTRL1, .AGCCTRL0, .WOREVT1, .WOREVT0, .WORCTRL, .FREND1, .FREND0,
    .FSCAL3, .FSCAL2, .FSCAL1, .FSCAL0 ]

/-- Lines 54-57: `byte cc1100regcfg[39]`, the initialiser after macro expansion, each
element converted to `byte`. -/
def cc1100regcfg : List Nat :=
  cc1100regcfgInit.filterMap (fun r => (expand valueDefines r).map byte)

/-- The register addresses `ADDR_X` of the table entries, entry by entry. -/
def cc1100regcfgAddrs : List Nat :=
  cc1100regcfgInit.filterMap (expand addrDefines)

/-- Address `ADDR_X` of the register named at index `i` of the initialiser. -/
def entryAddr (i : Nat) : Option Nat :=
  (cc1100regcfgInit[i]?).bind (expand addrDefines)

/-! ## Access flags and status masks (lines 114-118) -/

def WRITE_BURST : Nat := 0x40
def READ_SINGLE : Nat := 0x80
def READ_BURST : Nat := 0xC0
def BYTES_IN_RXFIFO : Nat := 0x7F
def CRC_OK : Nat := 0x80

/-! ## Strobe commands (lines 121-141) -/

def CCxxx0_SRES : Nat := 0x30
def CCxxx0_SFSTXON : Nat := 0x31
def CCxxx0_SXOFF : Nat := 0x32
def CCxxx0_SCAL : Nat := 0x33
def CCxxx0_SRX : Nat := 0x34
def CCxxx0_STX : Nat := 0x35
def CCxxx0_SIDLE : Nat := 0x36
def CCxxx0_SAFC : Nat := 0x37
def CCxxx0_SWOR : Nat := 0x38
def CCxxx0_SPWD : Nat := 0x39
def CCxxx0_SFRX : Nat := 0x3A
def CCxxx0_SFTX : Nat := 0x3B
def CCxxx0_SWORRST : Nat := 0x3C
def CCxxx0_SNOP : Nat := 0x3D

/-! ## Status registers (lines 143-154) -/

def CCxxx0_PARTNUM : Nat := 0x30
def CCxxx0_VERSION : Nat := 0x31
def CCxxx0_FREQEST : Nat := 0x32
def CCxxx0_LQI : Nat := 0x33
def CCxxx0_RSSI : Nat := 0x34
def CCxxx0_MARCSTATE : Nat := 0x35
def CCxxx0_WORTIME1 : Nat := 0x36
def CCxxx0_WORTIME0 : Nat := 0x37
def CCxxx0_PKTSTATUS : Nat := 0x38
def CCxxx0_VCO_VC_DAC : Nat := 0x39
def CCxxx0_TXBYTES : Nat := 0x3A
def CCxxx0_RXBYTES : Nat := 0x3B

/-! ## PATABLE and FIFO addresses (lines 156-158), `PA_TABLE` (line 160) -/

def CCxxx0_PATABLE : Nat := 0x3E
def CCxxx0_TXFIFO : Nat := 0x3F
def CCxxx0_RXFIFO : Nat := 0x3F

/-- Line 160: `const byte PA_TABLE[8]`. -/
def PA_TABLE : List Nat :=
  [0xC0, 0xC0, 0xC0, 0xC0, 0xC0, 0xC0, 0xC0, 0xC0].map byte

/-- The strobe opcodes of lines 121-141, in source order. -/
def strobeOpcodes : List Nat :=
  [ CCxxx0_SRES, CCxxx0_SFSTXON, CCxxx0_SXOFF, CCxxx0_SCAL, CCxxx0_SRX, CCxxx0_STX,
    CCxxx0_SIDLE, CCxxx0_SAFC, CCxxx0_SWOR, CCxxx0_SPWD, CCxxx0_SFRX, CCxxx0_SFTX,
    CCxxx0_SWORRST, CCxxx0_SNOP ]

/-- The status register addresses of lines 143-154, in source order. -/
def statusRegisters : List Nat :=
  [ CCxxx0_PARTNUM, CCxxx0_VERSION, CCxxx0_FREQEST, CCxxx0_LQI, CCxxx0_RSSI,
    CCxxx0_MARCSTATE, CCxxx0_WORTIME1, CCxxx0_WORTIME0, CCxxx0_PKTSTATUS,
    CCxxx0_VCO_VC_DAC, CCxxx0_TXBYTES, CCxxx0_RXBYTES ]

/-! ## Command bytes, status decoding and the simulated chip

The header holds no functions; the operations below are the ones the specification
describes on top of the header's constants. -/

/-- Modelled from the spec: the access modes of a command byte, "write-single,
write-burst, read-single, read-burst"; the header only defines the flag constants. -/
inductive AccessMode
  | writeSingle | writeBurst | readSingle | readBurst
  deriving DecidableEq, Repr

/-- Modelled from the spec: the flag OR-ed into the command byte, "write-burst (0x40),
read-single (0x80), read-burst (0xC0), or none (single write)", taken from the
header's `WRITE_BURST`, `READ_SINGLE`, `READ_BURST`. -/
def AccessMode.flag : AccessMode → Nat
  | .writeSingle => 0x00
  | .writeBurst => WRITE_BURST
  | .readSingle => READ_SINGLE
  | .readBurst => READ_BURST

/-- Modelled from the spec: the direction of an access mode (`true` for the two read
modes); the header has no such function. -/
def AccessMode.isRead : AccessMode → Bool
  | .writeSingle => false
  | .writeBurst => false
  | .readSingle => true
  | .readBurst => true

/-- Modelled from the spec: `encode(addr, mode)`, the command byte "address OR'd with
access-mode flags"; the header has no such function. -/
def encode (addr : Nat) (m : AccessMode) : Nat := addr ||| m.flag

/-- Modelled from the spec: `fifoBytesAvailable = statusByte & 0x7F`, with the header's
mask `BYTES_IN_RXFIFO`; the header has no decoder. -/
def fifoBytesAvailable (s : Nat) : Nat := s &&& BYTES_IN_RXFIFO

/-- Modelled from the spec: `crcOk = statusByte & 0x80`, with the header's mask
`CRC_OK`; the header has no decoder. -/
def crcOk (s : Nat) : Nat := s &&& CRC_OK

/-- Modelled from the spec: the context-free status decoder, returning both
interpretations `(fifoBytesAvailable, crcOk)` of a status byte. -/
def decode (s : Nat) : Nat × Nat := (fifoBytesAvailable s, crcOk s)

/-- Modelled from the spec: the simulated chip, a register file mapping each address
to one byte; the repository has no chip model. -/
structure Chip where
  regs : Nat → Nat

/-- Modelled from the spec: `writeRegister(addr, value)` on the simulated chip stores
the byte `value` at `addr` and leaves every other register as it was. -/
def writeRegister (c : Chip) (addr v : Nat) : Chip :=
  ⟨fun a => if a = addr then byte v else c.regs a⟩

/-- Modelled from the spec: `readRegister(addr)` on the simulated chip returns the
stored byte. -/
def readRegister (c : Chip) (addr : Nat) : Nat := c.regs addr

/-- Modelled from the spec: a sequence of `writeRegister` calls, first pair first. -/
def writeRegisters (c : Chip) (ws : List (Nat × Nat)) : Chip :=
  ws.foldl (fun c p => writeRegister c p.1 p.2) c

/-- Modelled from the spec: the CONFIGURING step, writing `cc1100regcfg[i]` to the
address of the `i`-th register, in table order. -/
def configure (c : Chip) : Chip :=
  writeRegisters c (cc1100regcfgAddrs.zip cc1100regcfg)

/-- Modelled from the spec: a simulated chip with every register cleared, the state
concrete evaluations start from. -/
def Chip.zero : Chip := ⟨fun _ => 0⟩

/-- Modelled from the spec: what one bus transaction puts on the bus, the command byte
followed by the data bytes sent out; the header has no bus code. -/
structure BusTransaction where
  commandByte : Nat
  outBytes : List Nat
  deriving DecidableEq, Repr

/-- Modelled from the spec: the transaction of `writeRegister(addr, value)`, "command
byte = addr (no flags), 1 data byte out". -/
def writeRegisterTransaction (addr v : Nat) : BusTransaction :=
  ⟨encode addr AccessMode.writeSingle, [byte v]⟩

/-- Modelled from the spec: the transaction of `writeBurst(addr, values[])`, "command
byte = addr | WRITE_BURST", the values sent out in order as bytes. -/
def writeBurst (addr : Nat) (values : List Nat) : BusTransaction :=
  ⟨encode addr AccessMode.writeBurst, values.map byte⟩

/-- Modelled from the spec: the bus traffic of the CONFIGURING step, "writes each
RegisterMap entry via `writeRegister`, in ascending address order; then writes PATable
via `writeBurst`", with the header's table, `CCxxx0_PATABLE` and `PA_TABLE`. -/
def configurationTransactions : List BusTransaction :=
  (cc1100regcfgAddrs.zip cc1100regcfg).map (fun p => writeRegisterTransaction p.1 p.2)
    ++ [writeBurst CCxxx0_PATABLE PA_TABLE]

/-! ## The register table -/

set_option maxRecDepth 100000

theorem entryAddr_eq_index : ∀ i, i < 39 → entryAddr i = some i := by decide

/-- C1: the ADDR_ constants of the 39 registers named in the initialiser of
`cc1100regcfg` (39 distinct names, each with an address) are pairwise distinct and
each lies in 0x00..0x2E. -/
theorem regcfg_addresses_distinct_in_range :
    cc1100regcfgInit.length = 39 ∧ cc1100regcfgInit.Nodup ∧
    cc1100regcfgAddrs.length = 39 ∧ cc1100regcfgAddrs.Nodup ∧
    (∀ a ∈ cc1100regcfgAddrs, 0x00 ≤ a ∧ a ≤ 0x2E) ∧
    (∀ i, i < 39 → ∀ j, j < 39 → i ≠ j →
      ∃ a b, entryAddr i = some a ∧ entryAddr j = some b ∧ a ≠ b ∧ a ≤ 0x2E) := by
  refine ⟨by decide, by decide, by decide, by decide, by decide, ?_⟩
  intro i hi j hj hij
  refine ⟨i, j, entryAddr_eq_index i hi, entryAddr_eq_index j hj, hij, ?_⟩
  omega

/-- C4: the table is ordered by register number: the name at index `i` of the
initialiser is the register whose ADDR_ constant is `i`, the element `cc1100regcfg[i]`
is that register's value macro, index 0 is IOCFG2 and index 38 is FSCAL0, and the
addresses met when walking the table are 0, 1, ..., 38, strictly ascending. -/
theorem regcfg_ordered_by_register_number (i : Nat) (h : i < 39) :
    (∃ r v, cc1100regcfgInit[i]? = some r ∧ expand addrDefines r = some i ∧
      expand valueDefines r = some v ∧ cc1100regcfg[i]? = some v) ∧
    cc1100regcfgInit[0]? = some Reg.IOCFG2 ∧ expand addrDefines Reg.IOCFG2 = some 0x00 ∧
    cc1100regcfgInit[38]? = some Reg.FSCAL0 ∧ expand addrDefines Reg.FSCAL0 = some 0x26 ∧
    cc1100regcfg.length = 39 ∧
    cc1100regcfgAddrs = List.range 39 ∧
    cc1100regcfgAddrs.Pairwise (fun a b => a < b) := by
  refine ⟨?_, by decide, by decide, by decide, by decide, by decide, by decide, by decide⟩
  interval_cases i <;> exact ⟨_, _, rfl, rfl, rfl, rfl⟩

theorem regcfg_ordered_by_register_number_witness :
    (9 < 39) ∧ cc1100regcfgInit[9]? = some Reg.ADDR ∧
    expand addrDefines Reg.ADDR = some 9 ∧ cc1100regcfg[9]? = some 0x00 ∧
    ((∃ r v, cc1100regcfgInit[9]? = some r ∧ expand addrDefines r = some 9 ∧
      expand valueDefines r = some v ∧ cc1100regcfg[9]? = some v) ∧
    cc1100regcfgInit[0]? = some Reg.IOCFG2 ∧ expand addrDefines Reg.IOCFG2 = some 0x00 ∧
    cc1100regcfgInit[38]? = some Reg.FSCAL0 ∧ expand addrDefines Reg.FSCAL0 = some 0x26 ∧
    cc1100regcfg.length = 39 ∧
    cc1100regcfgAddrs = List.range 39 ∧
    cc1100regcfgAddrs.Pairwise (fun a b => a < b)) :=
  ⟨by decide, by decide, by decide, by decide,
    regcfg_ordered_by_register_number 9 (by decide)⟩

/-- C6, as stated, fails at address 0x27: it lies in 0x00..0x2E and is the address of
no entry of the table. -/
theorem regcfg_misses_0x27 :
    0x27 ≤ 0x2E ∧ ¬ ∃ i, i < 39 ∧ entryAddr i = some 0x27 := by
  refine ⟨by decide, ?_⟩
  rintro ⟨i, hi, he⟩
  rw [entryAddr_eq_index i hi] at he
  injection he with he
  omega

/-- C6, amended: every address `a` in 0x00..0x26 is the address of exactly one of the
39 table entries; no entry has an address above 0x26; each address in 0x27..0x2E is
the address of an ADDR_ name that is not in the table. -/
theorem regcfg_covers_0x00_to_0x26 (a : Nat) (h : a ≤ 0x26) :
    (∃! i, i < 39 ∧ entryAddr i = some a) ∧
    (∀ b, 0x26 < b → ¬ ∃ i, i < 39 ∧ entryAddr i = some b) ∧
    (∀ b, 0x26 < b → b ≤ 0x2E →
      ∃ p ∈ addrDefines, p.2 = b ∧ p.1 ∉ cc1100regcfgInit) := by
  refine ⟨⟨a, ⟨by omega, entryAddr_eq_index a (by omega)⟩, ?_⟩, ?_, ?_⟩
  · rintro j ⟨hj, he⟩
    rw [entryAddr_eq_index j hj] at he
    injection he
  · rintro b hb ⟨i, hi, he⟩
    rw [entryAddr_eq_index i hi] at he
    injection he with he
    omega
  · intro b hb hb2
    have key : ∀ b, b < 0x2F → 0x26 < b →
        ∃ p ∈ addrDefines, p.2 = b ∧ p.1 ∉ cc1100regcfgInit := by decide
    exact key b (by omega) hb

theorem regcfg_covers_0x00_to_0x26_witness :
    (0x26 ≤ 0x26) ∧ entryAddr 38 = some 0x26 ∧
    ((∃! i, i < 39 ∧ entryAddr i = some 0x26) ∧
    (∀ b, 0x26 < b → ¬ ∃ i, i < 39 ∧ entryAddr i = some b) ∧
    (∀ b, 0x26 < b → b ≤ 0x2E →
      ∃ p ∈ addrDefines, p.2 = b ∧ p.1 ∉ cc1100regcfgInit)) :=
  ⟨by decide, by decide, regcfg_covers_0x00_to_0x26 0x26 (by decide)⟩

/-! ## The address-space layout -/

/-- C7: every ADDR_ name has a single value (the four names defined twice have the same
value in both definitions), all ADDR_ values lie in 0x00..0x2E, distinct names have
distinct values; strobe opcodes and status register addresses lie in 0x30..0x3D;
`CCxxx0_PATABLE` is 0x3E and both FIFO addresses are 0x3F; so no ADDR_ value is a
strobe, status, PATABLE or FIFO address. -/
theorem address_space_layout :
    (∀ p ∈ addrDefines, ∀ q ∈ addrDefines, p.1 = q.1 → p.2 = q.2) ∧
    (definitionsOf addrDefines Reg.FSTEST = [0x29, 0x29] ∧
      definitionsOf addrDefines Reg.TEST2 = [0x2C, 0x2C] ∧
      definitionsOf addrDefines Reg.TEST1 = [0x2D, 0x2D] ∧
      definitionsOf addrDefines Reg.TEST0 = [0x2E, 0x2E]) ∧
    (∀ p ∈ addrDefines, expand addrDefines p.1 = some p.2) ∧
    (∀ p ∈ addrDefines, 0x00 ≤ p.2 ∧ p.2 ≤ 0x2E) ∧
    (∀ p ∈ addrDefines, ∀ q ∈ addrDefines, p.1 ≠ q.1 → p.2 ≠ q.2) ∧
    (∀ s ∈ strobeOpcodes, 0x30 ≤ s ∧ s ≤ 0x3D) ∧
    (∀ s ∈ statusRegisters, 0x30 ≤ s ∧ s ≤ 0x3D) ∧
    CCxxx0_PATABLE = 0x3E ∧ CCxxx0_TXFIFO = 0x3F ∧ CCxxx0_RXFIFO = 0x3F ∧
    (∀ p ∈ addrDefines, p.2 ∉ strobeOpcodes ∧ p.2 ∉ statusRegisters ∧
      p.2 ≠ CCxxx0_PATABLE ∧ p.2 ≠ CCxxx0_TXFIFO ∧ p.2 ≠ CCxxx0_RXFIFO) := by
  refine ⟨by decide, by decide, by decide, by decide, by decide, by decide, by decide,
    by decide, by decide, by decide, by decide⟩

/-- C8, as stated, fails at the first strobe opcode: `CCxxx0_SRES` = 0x30 is a strobe
opcode of the header and is not greater than 0x3F. -/
theorem strobe_SRES_not_above_0x3F :
    CCxxx0_SRES ∈ strobeOpcodes ∧ CCxxx0_SRES = 0x30 ∧ ¬ (0x3F < CCxxx0_SRES) := by
  decide

/-- C8, amended: every strobe opcode of the header, `CCxxx0_SRES` = 0x30 through
`CCxxx0_SNOP` = 0x3D, lies in 0x30..0x3D, hence is at most 0x3F: it is representable
in bits 0..5 and has bits 6..7 clear. -/
theorem strobe_opcodes_fit_six_bits :
    strobeOpcodes.length = 14 ∧
    strobeOpcodes.head? = some CCxxx0_SRES ∧ CCxxx0_SRES = 0x30 ∧
    strobeOpcodes.getLast? = some CCxxx0_SNOP ∧ CCxxx0_SNOP = 0x3D ∧
    (∀ s ∈ strobeOpcodes,
      0x30 ≤ s ∧ s ≤ 0x3D ∧ s ≤ 0x3F ∧ s &&& 0x3F = s ∧ s &&& 0xC0 = 0) := by
  decide

/-- C9: `PA_TABLE` is a sequence of exactly 8 bytes, each equal to 0xC0.  So the burst
written to `CCxxx0_PATABLE` during configuration is eight times 0xC0: the burst
`writeBurst CCxxx0_PATABLE PA_TABLE` has command byte `CCxxx0_PATABLE | WRITE_BURST`
(0x7E, address bits 0x3E) and data bytes eight times 0xC0, it is the last of the 40
transactions of the configuration step, and it is the only one of them addressed to
`CCxxx0_PATABLE`. -/
theorem PA_TABLE_eight_times_0xC0 :
    PA_TABLE.length = 8 ∧ (∀ i, i < 8 → PA_TABLE[i]? = some 0xC0) ∧
    PA_TABLE = List.replicate 8 0xC0 ∧ (∀ b ∈ PA_TABLE, b < 256) ∧
    (writeBurst CCxxx0_PATABLE PA_TABLE).commandByte = CCxxx0_PATABLE ||| WRITE_BURST ∧
    (writeBurst CCxxx0_PATABLE PA_TABLE).commandByte = 0x7E ∧
    (writeBurst CCxxx0_PATABLE PA_TABLE).commandByte &&& 0x3F = CCxxx0_PATABLE ∧
    (writeBurst CCxxx0_PATABLE PA_TABLE).commandByte &&& 0xC0 = WRITE_BURST ∧
    (writeBurst CCxxx0_PATABLE PA_TABLE).outBytes = List.replicate 8 0xC0 ∧
    configurationTransactions.length = 40 ∧
    configurationTransactions.getLast? = some (writeBurst CCxxx0_PATABLE PA_TABLE) ∧
    configurationTransactions.filter
        (fun t => decide (t.commandByte &&& 0x3F = CCxxx0_PATABLE)) =
      [⟨0x7E, [0xC0, 0xC0, 0xC0, 0xC0, 0xC0, 0xC0, 0xC0, 0xC0]⟩] := by
  refine ⟨by decide, by decide, by decide, by decide, by decide, by decide, by decide,
    by decide, by decide, by decide, by decide, by decide⟩

/-! ## Command bytes -/

theorem AccessMode.flag_injective (m m' : AccessMode) (h : m.flag = m'.flag) : m = m' := by
  cases m <;> cases m' <;> first | rfl | exact absurd h (by decide)

theorem encode_bits (a : Nat) (h : a ≤ 0x3F) (m : AccessMode) :
    a &&& m.flag = 0 ∧ encode a m &&& 0x3F = a ∧ encode a m &&& 0xC0 = m.flag := by
  have key : ∀ a, a < 64 →
      ∀ m ∈ [AccessMode.writeSingle, AccessMode.writeBurst, AccessMode.readSingle,
        AccessMode.readBurst],
      a &&& m.flag = 0 ∧ encode a m &&& 0x3F = a ∧ encode a m &&& 0xC0 = m.flag := by
    decide
  refine key a (by omega) m ?_
  cases m <;> simp

/-- C2: for every address in 0x00..0x3F the command byte `encode addr mode` is
`addr OR flag(mode)` and equals `addr`, `addr|0x40`, `addr|0x80`, `addr|0xC0` for
write-single, write-burst, read-single, read-burst; the result is one byte. -/
theorem encode_command_byte (addr : Nat) (h : addr ≤ 0x3F) :
    encode addr AccessMode.writeSingle = addr ∧
    encode addr AccessMode.writeBurst = addr ||| 0x40 ∧
    encode addr AccessMode.readSingle = addr ||| 0x80 ∧
    encode addr AccessMode.readBurst = addr ||| 0xC0 ∧
    (∀ m, encode addr m = addr ||| m.flag ∧ encode addr m ≤ 0xFF) := by
  refine ⟨by simp [encode, AccessMode.flag], rfl, rfl, rfl, fun m => ⟨rfl, ?_⟩⟩
  have key : ∀ a, a < 64 →
      ∀ m ∈ [AccessMode.writeSingle, AccessMode.writeBurst, AccessMode.readSingle,
        AccessMode.readBurst], encode a m ≤ 0xFF := by
    decide
  refine key addr (by omega) m ?_
  cases m <;> simp

theorem encode_command_byte_witness :
    (0x09 ≤ 0x3F) ∧ encode 0x09 AccessMode.readBurst = 0xC9 ∧
    (encode 0x09 AccessMode.writeSingle = 0x09 ∧
    encode 0x09 AccessMode.writeBurst = 0x09 ||| 0x40 ∧
    encode 0x09 AccessMode.readSingle = 0x09 ||| 0x80 ∧
    encode 0x09 AccessMode.readBurst = 0x09 ||| 0xC0 ∧
    (∀ m, encode 0x09 m = 0x09 ||| m.flag ∧ encode 0x09 m ≤ 0xFF)) :=
  ⟨by decide, by decide, encode_command_byte 0x09 (by decide)⟩

/-- C3: for addresses up to 0x3F the address bits and the flag bits of a command byte
do not overlap: `addr AND flag = 0`, the low six bits of the command byte are the
address and the top two bits are the flag.  Hence `encode` is injective on
(address, mode), one address in write and in read direction gives different command
bytes, and so do a strobe opcode and a status register address sharing a value, and
`CCxxx0_TXFIFO` and `CCxxx0_RXFIFO`. -/
theorem encode_bits_disjoint (addr addr' : Nat) (m m' : AccessMode)
    (h : addr ≤ 0x3F) (h' : addr' ≤ 0x3F) :
    addr &&& m.flag = 0 ∧
    encode addr m &&& 0x3F = addr ∧
    encode addr m &&& 0xC0 = m.flag ∧
    (encode addr m = encode addr' m' → addr = addr' ∧ m = m') ∧
    (m.isRead = false → m'.isRead = true → encode addr m ≠ encode addr m') ∧
    (∀ s ∈ strobeOpcodes, ∀ t ∈ statusRegisters, s = t →
      ∀ w r : AccessMode, w.isRead = false → r.isRead = true → encode s w ≠ encode t r) ∧
    (CCxxx0_TXFIFO = 0x3F ∧ CCxxx0_RXFIFO = 0x3F ∧
      ∀ w r : AccessMode, w.isRead = false → r.isRead = true →
        encode CCxxx0_TXFIFO w ≠ encode CCxxx0_RXFIFO r) := by
  have inj : ∀ a b : Nat, a ≤ 0x3F → b ≤ 0x3F → ∀ n n' : AccessMode,
      encode a n = encode b n' → a = b ∧ n = n' := by
    intro a b ha hb n n' he
    obtain ⟨-, ha1, ha2⟩ := encode_bits a ha n
    obtain ⟨-, hb1, hb2⟩ := encode_bits b hb n'
    constructor
    · rw [← ha1, ← hb1, he]
    · apply AccessMode.flag_injective
      rw [← ha2, ← hb2, he]
  have dir : ∀ a b : Nat, a ≤ 0x3F → b ≤ 0x3F → ∀ w r : AccessMode,
      w.isRead = false → r.isRead = true → encode a w ≠ encode b r := by
    intro a b ha hb w r hw hr he
    have hwr := (inj a b ha hb w r he).2
    rw [hwr, hr] at hw
    exact Bool.noConfusion hw
  obtain ⟨h1, h2, h3⟩ := encode_bits addr h m
  refine ⟨h1, h2, h3, inj addr addr' h h' m m', dir addr addr h h m m', ?_, rfl, rfl, ?_⟩
  · intro s hs t ht _ w r hw hr
    have hs' : ∀ s ∈ strobeOpcodes, s ≤ 0x3F := by decide
    have ht' : ∀ t ∈ statusRegisters, t ≤ 0x3F := by decide
    exact dir s t (hs' s hs) (ht' t ht) w r hw hr
  · intro w r hw hr
    exact dir _ _ (by decide) (by decide) w r hw hr

theorem encode_bits_disjoint_witness :
    (0x3A ≤ 0x3F) ∧ (0x3A ≤ 0x3F) ∧
    encode CCxxx0_SFRX AccessMode.writeSingle = 0x3A ∧
    encode CCxxx0_TXBYTES AccessMode.readBurst = 0xFA ∧
    (0x3A &&& AccessMode.readBurst.flag = 0 ∧
    encode 0x3A AccessMode.readBurst &&& 0x3F = 0x3A ∧
    encode 0x3A AccessMode.readBurst &&& 0xC0 = AccessMode.readBurst.flag ∧
    (encode 0x3A AccessMode.readBurst = encode 0x3A AccessMode.writeSingle →
      0x3A = 0x3A ∧ AccessMode.readBurst = AccessMode.writeSingle) ∧
    (AccessMode.readBurst.isRead = false → AccessMode.writeSingle.isRead = true →
      encode 0x3A AccessMode.readBurst ≠ encode 0x3A AccessMode.writeSingle) ∧
    (∀ s ∈ strobeOpcodes, ∀ t ∈ statusRegisters, s = t →
      ∀ w r : AccessMode, w.isRead = false → r.isRead = true → encode s w ≠ encode t r) ∧
    (CCxxx0_TXFIFO = 0x3F ∧ CCxxx0_RXFIFO = 0x3F ∧
      ∀ w r : AccessMode, w.isRead = false → r.isRead = true →
        encode CCxxx0_TXFIFO w ≠ encode CCxxx0_RXFIFO r)) :=
  ⟨by decide, by decide, by decide, by decide,
    encode_bits_disjoint 0x3A 0x3A AccessMode.readBurst AccessMode.writeSingle
      (by decide) (by decide)⟩

/-! ## Status decoding -/

/-- C10: for every status byte `s`, `fifoBytesAvailable s` is at most 127, `crcOk s`
is 0 or 0x80, masking a second time changes nothing, the two masks share no bit,
`s = fifoBytesAvailable s OR crcOk s`, and two status bytes with the same decoded pair
are equal. -/
theorem status_decode_lossless (s t : Nat) (hs : s < 256) (ht : t < 256) :
    fifoBytesAvailable s = s &&& 0x7F ∧ crcOk s = s &&& 0x80 ∧
    fifoBytesAvailable s ≤ 127 ∧
    (crcOk s = 0 ∨ crcOk s = 0x80) ∧
    fifoBytesAvailable (fifoBytesAvailable s) = fifoBytesAvailable s ∧
    crcOk (crcOk s) = crcOk s ∧
    BYTES_IN_RXFIFO &&& CRC_OK = 0 ∧
    s = fifoBytesAvailable s ||| crcOk s ∧
    (decode s = decode t → s = t) := by
  have key : ∀ u, u < 256 →
      fifoBytesAvailable u ≤ 127 ∧ (crcOk u = 0 ∨ crcOk u = 0x80) ∧
      fifoBytesAvailable (fifoBytesAvailable u) = fifoBytesAvailable u ∧
      crcOk (crcOk u) = crcOk u ∧ u = fifoBytesAvailable u ||| crcOk u := by
    decide
  obtain ⟨k1, k2, k3, k4, k5⟩ := key s hs
  refine ⟨rfl, rfl, k1, k2, k3, k4, by decide, k5, ?_⟩
  intro hd
  have hf : fifoBytesAvailable s = fifoBytesAvailable t := congrArg Prod.fst hd
  have hc : crcOk s = crcOk t := congrArg Prod.snd hd
  rw [k5, (key t ht).2.2.2.2, hf, hc]

theorem status_decode_lossless_witness :
    (0x8F < 256) ∧ (0x0F < 256) ∧ decode 0x8F = (0x0F, 0x80) ∧ decode 0x0F = (0x0F, 0) ∧
    (fifoBytesAvailable 0x8F = 0x8F &&& 0x7F ∧ crcOk 0x8F = 0x8F &&& 0x80 ∧
    fifoBytesAvailable 0x8F ≤ 127 ∧
    (crcOk 0x8F = 0 ∨ crcOk 0x8F = 0x80) ∧
    fifoBytesAvailable (fifoBytesAvailable 0x8F) = fifoBytesAvailable 0x8F ∧
    crcOk (crcOk 0x8F) = crcOk 0x8F ∧
    BYTES_IN_RXFIFO &&& CRC_OK = 0 ∧
    0x8F = fifoBytesAvailable 0x8F ||| crcOk 0x8F ∧
    (decode 0x8F = decode 0x0F → 0x8F = 0x0F)) :=
  ⟨by decide, by decide, by decide, by decide,
    status_decode_lossless 0x8F 0x0F (by decide) (by decide)⟩

/-! ## The simulated chip -/

theorem readRegister_writeRegister_same (c : Chip) (addr v : Nat) :
    readRegister (writeRegister c addr v) addr = byte v := by
  simp [readRegister, writeRegister]

theorem readRegister_writeRegister_other (c : Chip) (addr v a : Nat) (h : a ≠ addr) :
    readRegister (writeRegister c addr v) a = readRegister c a := by
  simp [readRegister, writeRegister, h]

theorem readRegister_writeRegisters_untouched (ws : List (Nat × Nat)) (c : Chip) (a : Nat)
    (h : a ∉ ws.map Prod.fst) :
    readRegister (writeRegisters c ws) a = readRegister c a := by
  induction ws generalizing c with
  | nil => rfl
  | cons q ws ih =>
    simp only [List.map_cons, List.mem_cons, not_or] at h
    show readRegister (writeRegisters (writeRegister c q.1 q.2) ws) a = readRegister c a
    rw [ih (writeRegister c q.1 q.2) h.2, readRegister_writeRegister_other c q.1 q.2 a h.1]

theorem readRegister_writeRegisters (ws : List (Nat × Nat)) (c : Chip)
    (hnd : (ws.map Prod.fst).Nodup) (p : Nat × Nat) (hp : p ∈ ws) :
    readRegister (writeRegisters c ws) p.1 = byte p.2 := by
  induction ws generalizing c with
  | nil => cases hp
  | cons q ws ih =>
    simp only [List.map_cons, List.nodup_cons] at hnd
    show readRegister (writeRegisters (writeRegister c q.1 q.2) ws) p.1 = byte p.2
    rcases List.mem_cons.mp hp with hpq | hpws
    · subst hpq
      rw [readRegister_writeRegisters_untouched ws _ p.1 hnd.1,
        readRegister_writeRegister_same]
    · exact ih (writeRegister c q.1 q.2) hnd.2 hpws

/-- C5: on the simulated chip, `writeRegister addr v` followed by `readRegister addr`
returns the byte `v`, and after writing all 39 table entries in table order the
register of every entry `i` reads back the value `cc1100regcfg[i]` written for it. -/
theorem register_round_trip (c : Chip) (addr v i : Nat) (hv : v < 256) (hi : i < 39) :
    readRegister (writeRegister c addr v) addr = v ∧
    (cc1100regcfgAddrs.zip cc1100regcfg).length = 39 ∧
    ∃ a w, cc1100regcfgAddrs[i]? = some a ∧ cc1100regcfg[i]? = some w ∧
      entryAddr i = some a ∧ readRegister (configure c) a = w := by
  have hnd : ((cc1100regcfgAddrs.zip cc1100regcfg).map Prod.fst).Nodup := by decide
  have hbyte : ∀ p ∈ cc1100regcfgAddrs.zip cc1100regcfg, byte p.2 = p.2 := by decide
  have hidx : ∀ j, j < 39 → ∃ p ∈ cc1100regcfgAddrs.zip cc1100regcfg,
      cc1100regcfgAddrs[j]? = some p.1 ∧ cc1100regcfg[j]? = some p.2 ∧
      entryAddr j = some p.1 := by decide
  refine ⟨?_, by decide, ?_⟩
  · rw [readRegister_writeRegister_same]
    exact Nat.mod_eq_of_lt hv
  · obtain ⟨p, hp, ha, hw, he⟩ := hidx i hi
    refine ⟨p.1, p.2, ha, hw, he, ?_⟩
    rw [← hbyte p hp]
    exact readRegister_writeRegisters _ c hnd p hp

theorem register_round_trip_witness :
    (0x55 < 256) ∧ (38 < 39) ∧
    readRegister (configure Chip.zero) 0x26 = 0x1f ∧
    (readRegister (writeRegister Chip.zero 0x09 0x55) 0x09 = 0x55 ∧
    (cc1100regcfgAddrs.zip cc1100regcfg).length = 39 ∧
    ∃ a w, cc1100regcfgAddrs[38]? = some a ∧ cc1100regcfg[38]? = some w ∧
      entryAddr 38 = some a ∧ readRegister (configure Chip.zero) a = w) :=
  ⟨by decide, by decide, by decide,
    register_round_trip Chip.zero 0x09 0x55 38 (by decide) (by decide)⟩

end CC1100
